import Mathlib

/-!
Shallow embedding of the AI_TRANSLATOR backend (src/backend/main.py) and of
the one client-side check referenced by the spec (src/frontend/app.py).

The backend is a single FastAPI handler `translate_text`.  We model it as a
pure function parameterised by

  * the module-level `api_key` (the result of `os.getenv("OPENAI_API_KEY")`,
    an `Option String`: `none` when the variable is unset), and
  * the external completion API `client.chat.completions.create`, modelled as
    a function from the call's arguments to `Except String Completion`, where
    `.error e` stands for a raised exception whose `str()` is `e`.

The function returns the list of external calls actually issued (so that
"the external API is not invoked" is expressible) together with the
HTTP-level outcome.  Python `str.strip()` is modelled as `pyStrip` (dropping
leading and trailing whitespace characters); Python `len` on a `str` counts
code points, matching `String.length` on the character list.
-/

namespace AITranslator

/-- A chat message dictionary as passed to the completion API in main.py:
a role string and a content string. -/
structure ChatMessage where
  role : String
  content : String
deriving DecidableEq

/-- The message object inside a completion choice (`choice.message`),
carrying the generated content. -/
structure CompletionMessage where
  content : String
deriving DecidableEq

/-- One element of `response.choices`. -/
structure CompletionChoice where
  message : CompletionMessage
deriving DecidableEq

/-- The value returned by a successful `client.chat.completions.create` call:
a list of choices (main.py reads `response.choices[0].message.content`). -/
structure Completion where
  choices : List CompletionChoice
deriving DecidableEq

/-- The arguments main.py passes to `client.chat.completions.create`
(lines 107-115): model identifier, messages, sampling temperature and the
token cap.  The temperature literal 0.3 is represented as the rational
3/10. -/
structure CompletionArgs where
  model : Option String
  messages : List ChatMessage
  temperature : ℚ
  max_tokens : Nat
deriving DecidableEq

/-- The request body model `TranslationRequest` (main.py lines 35-39).
The `model` field is `Optional[str]` with default `"gpt-3.5-turbo"`:
omitting it in a structure instance yields the default, and an explicit
`none` models a caller sending `null`. -/
structure TranslationRequest where
  text : String
  source_language : String
  target_language : String
  model : Option String := some "gpt-3.5-turbo"
deriving DecidableEq

/-- The response body model `TranslationResponse` (main.py lines 41-45). -/
structure TranslationResponse where
  original_text : String
  translated_text : String
  source_language : String
  target_language : String
deriving DecidableEq

/-- A raised `fastapi.HTTPException`: status code plus detail string. -/
structure HTTPException where
  status_code : Nat
  detail : String
deriving DecidableEq

/-- The `SUPPORTED_LANGUAGES` dictionary (main.py lines 48-61), as an
association list in insertion order. -/
def SUPPORTED_LANGUAGES : List (String × String) :=
  [("fr", "French"), ("en", "English"), ("es", "Spanish"), ("de", "German"),
   ("it", "Italian"), ("pt", "Portuguese"), ("ru", "Russian"),
   ("ja", "Japanese"), ("ko", "Korean"), ("zh", "Chinese"),
   ("ar", "Arabic"), ("hi", "Hindi")]

/-- Dictionary lookup `SUPPORTED_LANGUAGES[code]`, `none` when absent. -/
def lookupLanguage (code : String) : Option String :=
  (SUPPORTED_LANGUAGES.find? (fun p => p.1 == code)).map Prod.snd

/-- Membership test `code in SUPPORTED_LANGUAGES` (main.py lines 82, 85). -/
def isSupported (code : String) : Bool :=
  (lookupLanguage code).isSome

/-- Display name of a supported code; only evaluated after the membership
checks, so the fallback for unknown codes is never reached there. -/
def displayName (code : String) : String :=
  (lookupLanguage code).getD ""

/-- Python `str.strip()` with no arguments: remove leading and trailing
whitespace characters from the string. -/
def pyStrip (s : String) : String :=
  ⟨((s.data.dropWhile Char.isWhitespace).reverse.dropWhile
      Char.isWhitespace).reverse⟩

/-- Python truthiness of the `os.getenv` result: `None` and the empty
string are falsy, any other string is truthy (`if not api_key`). -/
def truthy (s : Option String) : Bool :=
  match s with
  | none => false
  | some v => v != ""

/-- Module initialisation (main.py lines 17-19): read `OPENAI_API_KEY`
from the environment and raise `ValueError` when it is unset or empty,
so the process refuses to start; otherwise the module-level `api_key`
is the environment value. -/
def moduleInit (env : Option String) : Except String (Option String) :=
  if truthy env then Except.ok env
  else Except.error "OPENAI_API_KEY environment variable is required"

/-- The system-role message content (main.py line 110). -/
def systemMessage : String :=
  "You are a professional translator. Provide accurate and natural translations."

/-- The f-string `prompt` (main.py lines 99-104), byte for byte: the
triple-quoted literal keeps its newlines and its 8-space indentation. -/
def mkPrompt (source_lang target_lang text : String) : String :=
  "\n        Translate the following text from " ++ source_lang ++ " to " ++
    target_lang ++
    ".\n        Provide only the translation without any additional explanation or formatting.\n        \n        Text to translate: " ++
    text ++ "\n        "

/-- The argument record of the single `client.chat.completions.create`
call (main.py lines 107-115), as a function of the request. -/
def completionArgs (request : TranslationRequest) : CompletionArgs :=
  { model := request.model
    messages :=
      [⟨"system", systemMessage⟩,
       ⟨"user", mkPrompt (displayName request.source_language)
          (displayName request.target_language) request.text⟩]
    temperature := 3 / 10
    max_tokens := 1000 }

/-- The `POST /translate` handler `translate_text` (main.py lines 72-129).
First component: the external calls issued (empty or one element).
Second component: `.ok` with the 200 response, or `.error` with the
`HTTPException` surfaced to the client.  The `try`/`except` boundary
re-raises `HTTPException`s unchanged and wraps any other exception `e`
into status 500 with detail `"Translation failed: " ++ str(e)`; the
`response.choices[0]` subscript on an empty list raises an `IndexError`
whose `str()` is `"list index out of range"`, caught by the same
boundary. -/
def translate_text (api_key : Option String)
    (api : CompletionArgs → Except String Completion)
    (request : TranslationRequest) :
    List CompletionArgs × Except HTTPException TranslationResponse :=
  if !truthy api_key then
    ([], Except.error ⟨500, "OpenAI API key not configured"⟩)
  else if !isSupported request.source_language then
    ([], Except.error ⟨400, "Source language '" ++ request.source_language ++
          "' not supported"⟩)
  else if !isSupported request.target_language then
    ([], Except.error ⟨400, "Target language '" ++ request.target_language ++
          "' not supported"⟩)
  else if pyStrip request.text = "" then
    ([], Except.error ⟨400, "Text cannot be empty"⟩)
  else if 5000 < request.text.length then
    ([], Except.error ⟨400, "Text too long (max 5000 characters)"⟩)
  else
    let args := completionArgs request
    match api args with
    | Except.error e =>
        ([args], Except.error ⟨500, "Translation failed: " ++ e⟩)
    | Except.ok response =>
        match response.choices with
        | [] =>
            ([args],
             Except.error ⟨500, "Translation failed: list index out of range"⟩)
        | choice :: _ =>
            ([args],
             Except.ok ⟨request.text, pyStrip choice.message.content,
                        request.source_language, request.target_language⟩)

/-- Client form submit control (src/frontend/app.py line 186): the button
is disabled when the stripped input is empty or the two selected language
codes coincide. -/
def clientSubmitDisabled (text source_lang target_lang : String) : Bool :=
  pyStrip text == "" || source_lang == target_lang

/-- A stub external API returning one choice whose content is `reply`. -/
def stubApi (reply : String) : CompletionArgs → Except String Completion :=
  fun _ => Except.ok ⟨[⟨⟨reply⟩⟩]⟩

lemma translate_text_run (api_key : Option String)
    (api : CompletionArgs → Except String Completion)
    (request : TranslationRequest)
    (hkey : truthy api_key = true)
    (hs : isSupported request.source_language = true)
    (ht : isSupported request.target_language = true)
    (hne : pyStrip request.text ≠ "")
    (hlen : ¬ 5000 < request.text.length) :
    translate_text api_key api request =
      match api (completionArgs request) with
      | Except.error e =>
          ([completionArgs request],
           Except.error ⟨500, "Translation failed: " ++ e⟩)
      | Except.ok response =>
          match response.choices with
          | [] =>
              ([completionArgs request],
               Except.error ⟨500, "Translation failed: list index out of range"⟩)
          | choice :: _ =>
              ([completionArgs request],
               Except.ok ⟨request.text, pyStrip choice.message.content,
                          request.source_language, request.target_language⟩) := by
  simp [translate_text, hkey, hs, ht, hne, hlen]

lemma translate_text_calls (api_key : Option String)
    (api : CompletionArgs → Except String Completion)
    (request : TranslationRequest)
    (hkey : truthy api_key = true)
    (hs : isSupported request.source_language = true)
    (ht : isSupported request.target_language = true)
    (hne : pyStrip request.text ≠ "")
    (hlen : ¬ 5000 < request.text.length) :
    (translate_text api_key api request).1 = [completionArgs request] := by
  rw [translate_text_run api_key api request hkey hs ht hne hlen]
  cases hapi : api (completionArgs request) with
  | error e => rfl
  | ok response =>
    obtain ⟨choices⟩ := response
    cases choices with
    | nil => rfl
    | cons c rest => rfl

lemma translation_failed_ne (e : String) :
    ("Translation failed: " ++ e) ≠ "OpenAI API key not configured" := by
  intro h
  obtain ⟨l⟩ := e
  have h2 : "Translation failed: ".data ++ l =
      ("OpenAI API key not configured" : String).data := congrArg String.data h
  have hT : ("Translation failed: " : String).data =
      'T' :: "ranslation failed: ".data := by decide
  have hO : ("OpenAI API key not configured" : String).data =
      'O' :: "penAI API key not configured".data := by decide
  rw [hT, hO, List.cons_append] at h2
  simp at h2

lemma dropWhile_ws_replicate (n : Nat) :
    List.dropWhile Char.isWhitespace (List.replicate (n + 1) 'a') =
      List.replicate (n + 1) 'a' := by
  rw [List.replicate_succ, List.dropWhile_cons, if_neg (by decide),
    ← List.replicate_succ]

lemma pyStrip_replicate_a (n : Nat) :
    pyStrip ⟨List.replicate (n + 1) 'a'⟩ = ⟨List.replicate (n + 1) 'a'⟩ := by
  unfold pyStrip
  rw [show (String.mk (List.replicate (n + 1) 'a')).data =
        List.replicate (n + 1) 'a' from rfl,
    dropWhile_ws_replicate, List.reverse_replicate, dropWhile_ws_replicate,
    List.reverse_replicate]

lemma pyStrip_replicate_a_ne (n : Nat) :
    pyStrip ⟨List.replicate (n + 1) 'a'⟩ ≠ "" := by
  rw [pyStrip_replicate_a]
  intro h
  have h2 : List.replicate (n + 1) 'a' = [] := congrArg String.data h
  simp [List.replicate_succ] at h2

lemma length_replicate_a (n : Nat) :
    (⟨List.replicate n 'a'⟩ : String).length = n := by
  show (List.replicate n 'a').length = n
  exact List.length_replicate n 'a'


/-- C1: the translate operation performs its checks in the fixed order
source-language membership, target-language membership, non-emptiness of
the trimmed text, untrimmed length at most 5000; the first failing check
determines the single reported error, and the external completion API is
invoked exactly when all four checks pass. -/
theorem C1_validation_order (api_key : Option String)
    (api : CompletionArgs → Except String Completion)
    (request : TranslationRequest) (hkey : truthy api_key = true) :
    (isSupported request.source_language = false →
      translate_text api_key api request =
        ([], Except.error ⟨400, "Source language '" ++
            request.source_language ++ "' not supported"⟩)) ∧
    (isSupported request.source_language = true →
      isSupported request.target_language = false →
      translate_text api_key api request =
        ([], Except.error ⟨400, "Target language '" ++
            request.target_language ++ "' not supported"⟩)) ∧
    (isSupported request.source_language = true →
      isSupported request.target_language = true →
      pyStrip request.text = "" →
      translate_text api_key api request =
        ([], Except.error ⟨400, "Text cannot be empty"⟩)) ∧
    (isSupported request.source_language = true →
      isSupported request.target_language = true →
      pyStrip request.text ≠ "" →
      5000 < request.text.length →
      translate_text api_key api request =
        ([], Except.error ⟨400, "Text too long (max 5000 characters)"⟩)) ∧
    (isSupported request.source_language = true →
      isSupported request.target_language = true →
      pyStrip request.text ≠ "" →
      ¬ 5000 < request.text.length →
      (translate_text api_key api request).1 = [completionArgs request]) := by
  refine ⟨?_, ?_, ?_, ?_, ?_⟩
  · intro h1
    simp [translate_text, hkey, h1]
  · intro h1 h2
    simp [translate_text, hkey, h1, h2]
  · intro h1 h2 h3
    simp [translate_text, hkey, h1, h2, h3]
  · intro h1 h2 h3 h4
    simp [translate_text, hkey, h1, h2, h3, h4]
  · intro h1 h2 h3 h4
    exact translate_text_calls api_key api request hkey h1 h2 h3 h4

/-- Witness for C1 at a concrete request: an unsupported source code is
reported by the first check and no external call is made. -/
theorem C1_validation_order_witness :
    truthy (some "k") = true ∧
    translate_text (some "k") (stubApi "Bonjour")
        { text := "hi", source_language := "xx", target_language := "fr" } =
      ([], Except.error ⟨400, "Source language 'xx' not supported"⟩) :=
  ⟨by decide,
   (C1_validation_order (some "k") (stubApi "Bonjour")
      { text := "hi", source_language := "xx", target_language := "fr" }
      (by decide)).1 (by decide)⟩

/-- C4: when both language codes are supported and the text strips to the
empty string, translate fails with status 400 and detail
"Text cannot be empty", and the external API is not invoked. -/
theorem C4_empty_text (api_key : Option String)
    (api : CompletionArgs → Except String Completion)
    (request : TranslationRequest) (hkey : truthy api_key = true)
    (hs : isSupported request.source_language = true)
    (ht : isSupported request.target_language = true)
    (he : pyStrip request.text = "") :
    translate_text api_key api request =
      ([], Except.error ⟨400, "Text cannot be empty"⟩) := by
  simp [translate_text, hkey, hs, ht, he]

/-- Witness for C4 at a concrete request with whitespace-only text. -/
theorem C4_empty_text_witness :
    truthy (some "k") = true ∧
    isSupported "en" = true ∧ isSupported "fr" = true ∧
    pyStrip "   " = "" ∧
    translate_text (some "k") (stubApi "Bonjour")
        { text := "   ", source_language := "en", target_language := "fr" } =
      ([], Except.error ⟨400, "Text cannot be empty"⟩) :=
  ⟨by decide, by decide, by decide, by decide,
   C4_empty_text (some "k") (stubApi "Bonjour")
     { text := "   ", source_language := "en", target_language := "fr" }
     (by decide) (by decide) (by decide) (by decide)⟩

/-- C5: a request whose source code is unsupported, or whose source is
supported but whose target code is unsupported, fails with a 400 error
whose detail names the offending code, and no external call is made. -/
theorem C5_unsupported_language (api_key : Option String)
    (api : CompletionArgs → Except String Completion)
    (request : TranslationRequest) (hkey : truthy api_key = true) :
    (isSupported request.source_language = false →
      translate_text api_key api request =
        ([], Except.error ⟨400, "Source language '" ++
            request.source_language ++ "' not supported"⟩)) ∧
    (isSupported request.source_language = true →
      isSupported request.target_language = false →
      translate_text api_key api request =
        ([], Except.error ⟨400, "Target language '" ++
            request.target_language ++ "' not supported"⟩)) := by
  constructor
  · intro h1
    simp [translate_text, hkey, h1]
  · intro h1 h2
    simp [translate_text, hkey, h1, h2]

/-- Witness for C5: the code "xx" is unsupported, both as source and (with
a supported source) as target, and the reported detail names it. -/
theorem C5_unsupported_language_witness :
    truthy (some "k") = true ∧
    translate_text (some "k") (stubApi "Bonjour")
        { text := "hi", source_language := "en", target_language := "xx" } =
      ([], Except.error ⟨400, "Target language 'xx' not supported"⟩) :=
  ⟨by decide,
   (C5_unsupported_language (some "k") (stubApi "Bonjour")
      { text := "hi", source_language := "en", target_language := "xx" }
      (by decide)).2 (by decide) (by decide)⟩

/-- C2: every successful translate call returns exactly the request text as
original_text, the first completion choice's message content stripped of
surrounding whitespace as translated_text, and the request's language codes
echoed unchanged, whatever the external model returned. -/
theorem C2_success_response_shape (api_key : Option String)
    (api : CompletionArgs → Except String Completion)
    (request : TranslationRequest) (resp : TranslationResponse)
    (h : (translate_text api_key api request).2 = Except.ok resp) :
    ∃ response choice rest,
      api (completionArgs request) = Except.ok response ∧
      response.choices = choice :: rest ∧
      resp = ⟨request.text, pyStrip choice.message.content,
              request.source_language, request.target_language⟩ := by
  by_cases h1 : truthy api_key
  case neg =>
    simp at h1
    simp [translate_text, h1] at h
  by_cases h2 : isSupported request.source_language
  case neg =>
    simp at h2
    simp [translate_text, h1, h2] at h
  by_cases h3 : isSupported request.target_language
  case neg =>
    simp at h3
    simp [translate_text, h1, h2, h3] at h
  by_cases h4 : pyStrip request.text = ""
  case pos =>
    simp [translate_text, h1, h2, h3, h4] at h
  by_cases h5 : 5000 < request.text.length
  case pos =>
    simp [translate_text, h1, h2, h3, h4, h5] at h
  rw [translate_text_run api_key api request h1 h2 h3 h4 h5] at h
  cases hapi : api (completionArgs request) with
  | error e =>
    rw [hapi] at h
    simp at h
  | ok response =>
    rw [hapi] at h
    obtain ⟨choices⟩ := response
    cases choices with
    | nil => simp at h
    | cons choice rest =>
      refine ⟨⟨choice :: rest⟩, choice, rest, rfl, rfl, ?_⟩
      have h7 : Except.ok (⟨request.text, pyStrip choice.message.content,
          request.source_language,
          request.target_language⟩ : TranslationResponse) = Except.ok resp := h
      injection h7 with h8
      exact h8.symm

/-- Witness for C2: with a stubbed external API returning "Bonjour", the
request with text "Hello" from "en" to "fr" succeeds and the response
consists of the echoed inputs and the stripped model output. -/
theorem C2_success_response_shape_witness :
    ∃ response choice rest,
      stubApi "Bonjour" (completionArgs
          { text := "Hello", source_language := "en",
            target_language := "fr" }) = Except.ok response ∧
      response.choices = choice :: rest ∧
      (⟨"Hello", "Bonjour", "en", "fr"⟩ : TranslationResponse) =
        ⟨"Hello", pyStrip choice.message.content, "en", "fr"⟩ :=
  C2_success_response_shape (some "k") (stubApi "Bonjour")
    { text := "Hello", source_language := "en", target_language := "fr" }
    ⟨"Hello", "Bonjour", "en", "fr"⟩ rfl

/-- C3: with supported languages and non-empty trimmed text, untrimmed
length above 5000 is rejected with the text-too-long error and no external
call, while untrimmed length at most 5000 (in particular exactly 5000)
passes the length check and reaches the external call: the bound is
inclusive and measured on the untrimmed text. -/
theorem C3_length_bound (api_key : Option String)
    (api : CompletionArgs → Except String Completion)
    (request : TranslationRequest) (hkey : truthy api_key = true)
    (hs : isSupported request.source_language = true)
    (ht : isSupported request.target_language = true)
    (hne : pyStrip request.text ≠ "") :
    (5000 < request.text.length →
      translate_text api_key api request =
        ([], Except.error ⟨400, "Text too long (max 5000 characters)"⟩)) ∧
    (request.text.length ≤ 5000 →
      (translate_text api_key api request).1 = [completionArgs request]) := by
  constructor
  · intro h5
    simp [translate_text, hkey, hs, ht, hne, h5]
  · intro h5
    exact translate_text_calls api_key api request hkey hs ht hne
      (Nat.not_lt.mpr h5)

/-- Witness for C3 at the boundary: a text of exactly 5000 characters
passes validation and the external call is issued. -/
theorem C3_length_bound_witness :
    pyStrip ⟨List.replicate 5000 'a'⟩ ≠ "" ∧
    (⟨List.replicate 5000 'a'⟩ : String).length = 5000 ∧
    (translate_text (some "k") (stubApi "Bonjour")
        { text := ⟨List.replicate 5000 'a'⟩, source_language := "en",
          target_language := "fr" }).1 =
      [completionArgs
        { text := ⟨List.replicate 5000 'a'⟩, source_language := "en",
          target_language := "fr" }] :=
  ⟨pyStrip_replicate_a_ne 4999, length_replicate_a 5000,
   (C3_length_bound (some "k") (stubApi "Bonjour")
      { text := ⟨List.replicate 5000 'a'⟩, source_language := "en",
        target_language := "fr" }
      (by decide) (by decide) (by decide)
      (pyStrip_replicate_a_ne 4999)).2
     (Nat.le_of_eq (length_replicate_a 5000))⟩

/-- C6: prompt construction is a pure function of text, source and target:
two requests agreeing on those three fields (whatever their model fields)
produce identical message lists, and the messages are exactly the fixed
system persona and the fixed instruction template with the two resolved
display names and the literal input text interpolated. -/
theorem C6_prompt_deterministic (r1 r2 : TranslationRequest)
    (htext : r1.text = r2.text)
    (hsrc : r1.source_language = r2.source_language)
    (htgt : r1.target_language = r2.target_language) :
    (completionArgs r1).messages = (completionArgs r2).messages ∧
    (completionArgs r1).messages =
      [⟨"system",
        "You are a professional translator. Provide accurate and natural translations."⟩,
       ⟨"user",
        "\n        Translate the following text from " ++
          displayName r1.source_language ++ " to " ++
          displayName r1.target_language ++
          ".\n        Provide only the translation without any additional explanation or formatting.\n        \n        Text to translate: " ++
          r1.text ++ "\n        "⟩] := by
  constructor
  · simp [completionArgs, htext, hsrc, htgt]
  · rfl

/-- Witness for C6: two concrete requests that differ only in the model
field yield byte-identical message lists. -/
theorem C6_prompt_deterministic_witness :
    (completionArgs
        { text := "Hello", source_language := "en",
          target_language := "fr" }).messages =
      (completionArgs
        { text := "Hello", source_language := "en", target_language := "fr",
          model := none }).messages :=
  (C6_prompt_deterministic
    { text := "Hello", source_language := "en", target_language := "fr" }
    { text := "Hello", source_language := "en", target_language := "fr",
      model := none } rfl rfl rfl).1

/-- C7: every request passing validation triggers exactly one external
completion call, whose arguments are the request's model field, exactly the
two system and user messages, temperature 3/10 and a 1000-token cap; and a
request built without an explicit model field carries the default
"gpt-3.5-turbo". -/
theorem C7_external_call_args (api_key : Option String)
    (api : CompletionArgs → Except String Completion)
    (request : TranslationRequest) (hkey : truthy api_key = true)
    (hs : isSupported request.source_language = true)
    (ht : isSupported request.target_language = true)
    (hne : pyStrip request.text ≠ "")
    (hlen : request.text.length ≤ 5000) :
    (translate_text api_key api request).1 =
      [{ model := request.model,
         messages :=
           [⟨"system", systemMessage⟩,
            ⟨"user", mkPrompt (displayName request.source_language)
               (displayName request.target_language) request.text⟩],
         temperature := 3 / 10,
         max_tokens := 1000 }] ∧
    (∀ text source target : String,
      ({ text := text, source_language := source,
         target_language := target } : TranslationRequest).model =
        some "gpt-3.5-turbo") := by
  constructor
  · exact translate_text_calls api_key api request hkey hs ht hne
      (Nat.not_lt.mpr hlen)
  · intro text source target
    rfl

/-- Witness for C7 at a concrete valid request with the model field
omitted. -/
theorem C7_external_call_args_witness :
    (translate_text (some "k") (stubApi "Bonjour")
        { text := "Hello", source_language := "en",
          target_language := "fr" }).1 =
      [{ model := some "gpt-3.5-turbo",
         messages :=
           [⟨"system", systemMessage⟩,
            ⟨"user", mkPrompt (displayName "en") (displayName "fr")
               "Hello"⟩],
         temperature := 3 / 10,
         max_tokens := 1000 }] :=
  (C7_external_call_args (some "k") (stubApi "Bonjour")
    { text := "Hello", source_language := "en", target_language := "fr" }
    (by decide) (by decide) (by decide) (by decide) (by decide)).1


/-- C8: a request whose source and target codes coincide, with the code
supported and the text valid, is not rejected by the service: no 400 error
is possible and the external call is issued; the distinctness check exists
only in the client form, whose submit control is disabled for it. -/
theorem C8_same_language_not_rejected (api_key : Option String)
    (api : CompletionArgs → Except String Completion)
    (request : TranslationRequest) (hkey : truthy api_key = true)
    (heq : request.source_language = request.target_language)
    (hs : isSupported request.source_language = true)
    (hne : pyStrip request.text ≠ "")
    (hlen : request.text.length ≤ 5000) :
    (translate_text api_key api request).1 = [completionArgs request] ∧
    (∀ d : String,
      (translate_text api_key api request).2 ≠ Except.error ⟨400, d⟩) ∧
    clientSubmitDisabled request.text request.source_language
      request.target_language = true := by
  have ht : isSupported request.target_language = true := heq ▸ hs
  have hlen' : ¬ 5000 < request.text.length := Nat.not_lt.mpr hlen
  refine ⟨translate_text_calls api_key api request hkey hs ht hne hlen',
    ?_, ?_⟩
  · intro d
    rw [translate_text_run api_key api request hkey hs ht hne hlen']
    cases hapi : api (completionArgs request) with
    | error e => simp
    | ok response =>
      obtain ⟨choices⟩ := response
      cases choices with
      | nil => simp
      | cons choice rest => simp
  · simp [clientSubmitDisabled, heq]

/-- Witness for C8: an en-to-en request with valid text reaches the
external call. -/
theorem C8_same_language_not_rejected_witness :
    truthy (some "k") = true ∧
    (translate_text (some "k") (stubApi "Hello")
        { text := "Hello", source_language := "en",
          target_language := "en" }).1 =
      [completionArgs
        { text := "Hello", source_language := "en",
          target_language := "en" }] :=
  ⟨by decide,
   (C8_same_language_not_rejected (some "k") (stubApi "Hello")
      { text := "Hello", source_language := "en", target_language := "en" }
      (by decide) rfl (by decide) (by decide) (by decide)).1⟩

/-- C9: for a request that passes validation, an exception raised by the
external call is caught at the handler boundary and reported as status 500
with detail "Translation failed: " followed by the underlying message, as
is the IndexError from an empty choices list; the validation errors
themselves are re-raised unchanged, which is the content of the equalities
in the C1 theorem. -/
theorem C9_exception_boundary (api_key : Option String)
    (api : CompletionArgs → Except String Completion)
    (request : TranslationRequest) (hkey : truthy api_key = true)
    (hs : isSupported request.source_language = true)
    (ht : isSupported request.target_language = true)
    (hne : pyStrip request.text ≠ "")
    (hlen : request.text.length ≤ 5000) :
    (∀ e : String, api (completionArgs request) = Except.error e →
      translate_text api_key api request =
        ([completionArgs request],
         Except.error ⟨500, "Translation failed: " ++ e⟩)) ∧
    (∀ response : Completion,
      api (completionArgs request) = Except.ok response →
      response.choices = [] →
      translate_text api_key api request =
        ([completionArgs request],
         Except.error
           ⟨500, "Translation failed: list index out of range"⟩)) := by
  have hlen' : ¬ 5000 < request.text.length := Nat.not_lt.mpr hlen
  constructor
  · intro e hapi
    rw [translate_text_run api_key api request hkey hs ht hne hlen', hapi]
  · intro response hapi hch
    obtain ⟨choices⟩ := response
    have hch2 : choices = [] := hch
    subst hch2
    rw [translate_text_run api_key api request hkey hs ht hne hlen', hapi]

/-- Witness for C9: a stubbed external API raising a connection error
yields the wrapped 500 error. -/
theorem C9_exception_boundary_witness :
    translate_text (some "k")
        (fun _ => Except.error "Connection error.")
        { text := "Hello", source_language := "en",
          target_language := "fr" } =
      ([completionArgs
          { text := "Hello", source_language := "en",
            target_language := "fr" }],
       Except.error ⟨500, "Translation failed: " ++ "Connection error."⟩) :=
  (C9_exception_boundary (some "k")
    (fun _ => Except.error "Connection error.")
    { text := "Hello", source_language := "en", target_language := "fr" }
    (by decide) (by decide) (by decide) (by decide) (by decide)).1
    "Connection error." rfl

/-- C10: under the startup precondition that module initialisation
succeeded (the OPENAI_API_KEY value is a non-empty string, otherwise the
process refuses to start), the handler's 500 branch with detail
"OpenAI API key not configured" is unreachable for every request and every
behaviour of the external API. -/
theorem C10_key_error_unreachable (env api_key : Option String)
    (api : CompletionArgs → Except String Completion)
    (request : TranslationRequest)
    (hinit : moduleInit env = Except.ok api_key) :
    (translate_text api_key api request).2 ≠
      Except.error ⟨500, "OpenAI API key not configured"⟩ := by
  have hkey : truthy api_key = true := by
    by_cases hc : truthy env
    · unfold moduleInit at hinit
      rw [if_pos hc] at hinit
      injection hinit with h2
      rw [← h2]
      exact hc
    · unfold moduleInit at hinit
      rw [if_neg hc] at hinit
      exact absurd hinit (by simp)
  simp only [translate_text, hkey]
  split_ifs with h1 h2 h3 h4 h5
  · simp at h1
  · simp
  · simp
  · simp
  · simp
  · cases hapi : api (completionArgs request) with
    | error e =>
      simp [hapi, translation_failed_ne e]
    | ok response =>
      obtain ⟨choices⟩ := response
      cases choices with
      | nil => simp [hapi]
      | cons choice rest => simp [hapi]

/-- Witness for C10: with a configured key, a concrete request never hits
the unconfigured-key error, whatever the stubbed external API does. -/
theorem C10_key_error_unreachable_witness :
    moduleInit (some "k") = Except.ok (some "k") ∧
    (translate_text (some "k") (stubApi "Bonjour")
        { text := "Hello", source_language := "en",
          target_language := "fr" }).2 ≠
      Except.error ⟨500, "OpenAI API key not configured"⟩ :=
  ⟨rfl,
   C10_key_error_unreachable (some "k") (some "k") (stubApi "Bonjour")
     { text := "Hello", source_language := "en", target_language := "fr" }
     rfl⟩

end AITranslator
